import Mathlib

/-!
Shallow embedding, in Lean 4, of the example code of `py_protocol.py`
(a tutorial on Python's `Protocol` structural typing). Each teaching
snippet's methods are embedded as pure Lean functions; Python `print`
output is modelled as a returned list of strings, a Python `dict` as an
association list `List (String × V)` whose operations mirror CPython
insertion-order semantics, and a raised exception as `Except PyErr`.
-/

/-- A Python exception, as raised by the examples: `ValueError(msg)` in
`save_to_db`, and `KeyError(key)` from a failing `d[key]` / `del d[key]`. -/
inductive PyErr where
  | valueError (msg : String)
  | keyError (key : String)
deriving DecidableEq, Repr

/-! ### Python dict primitives (insertion-ordered association lists) -/

/-- `d.get(k)` on a Python dict: the value stored at the first matching key. -/
def dlookup {V : Type} (k : String) : List (String × V) → Option V
  | [] => Option.none
  | kv :: rest => if kv.1 = k then Option.some kv.2 else dlookup k rest

/-- `k in d` on a Python dict. -/
def containsKey {V : Type} (k : String) (d : List (String × V)) : Bool :=
  (dlookup k d).isSome

/-- `d[k] = v` on a Python dict: overwrite in place if `k` is present
(keeping its position), otherwise append at the end. -/
def dinsert {V : Type} (k : String) (v : V) (d : List (String × V)) :
    List (String × V) :=
  if containsKey k d then d.map (fun kv => if kv.1 = k then (k, v) else kv)
  else d ++ [(k, v)]

/-- Drop every entry with key `k`; used both to model `del d[k]` and to
state frame properties ("all other keys are unchanged"). -/
def dstrip {V : Type} (k : String) : List (String × V) → List (String × V)
  | [] => []
  | kv :: rest => if kv.1 = k then dstrip k rest else kv :: dstrip k rest

/-! ### Lemmas about the dict primitives -/

theorem dlookup_append_self {V : Type} (k : String) (v : V) :
    ∀ d : List (String × V), dlookup k d = Option.none →
      dlookup k (d ++ [(k, v)]) = Option.some v := by
  intro d
  induction d with
  | nil => intro _; simp [dlookup]
  | cons kv rest ih =>
    intro h
    by_cases hk : kv.1 = k
    · simp [dlookup, hk] at h
    · simpa [dlookup, hk] using ih (by simpa [dlookup, hk] using h)

theorem dlookup_map_replace_self {V : Type} (k : String) (v : V) :
    ∀ d : List (String × V), (dlookup k d).isSome →
      dlookup k (d.map (fun kv => if kv.1 = k then (k, v) else kv)) =
        Option.some v := by
  intro d
  induction d with
  | nil => intro h; simp [dlookup] at h
  | cons kv rest ih =>
    intro h
    by_cases hk : kv.1 = k
    · simp [dlookup, hk]
    · simpa [dlookup, hk] using ih (by simpa [dlookup, hk] using h)

/-- After `d[k] = v`, looking up `k` yields `v`. -/
theorem dlookup_dinsert_self {V : Type} (k : String) (v : V)
    (d : List (String × V)) : dlookup k (dinsert k v d) = Option.some v := by
  unfold dinsert containsKey
  by_cases h : (dlookup k d).isSome
  · simpa [h] using dlookup_map_replace_self k v d h
  · have hn : dlookup k d = Option.none := by
      cases hd : dlookup k d with
      | none => rfl
      | some w => rw [hd] at h; simp at h
    simpa [h] using dlookup_append_self k v d hn

theorem dstrip_append {V : Type} (k : String) (d e : List (String × V)) :
    dstrip k (d ++ e) = dstrip k d ++ dstrip k e := by
  induction d with
  | nil => simp [dstrip]
  | cons kv rest ih =>
    by_cases hk : kv.1 = k <;> simp [dstrip, hk, ih]

theorem dstrip_map_replace_self {V : Type} (k : String) (v : V) :
    ∀ d : List (String × V),
      dstrip k (d.map (fun kv => if kv.1 = k then (k, v) else kv)) =
        dstrip k d := by
  intro d
  induction d with
  | nil => simp [dstrip]
  | cons kv rest ih =>
    by_cases hk : kv.1 = k <;> simp [dstrip, hk, ih]

theorem dstrip_map_replace_ne {V : Type} (k k' : String) (v : V)
    (h : k' ≠ k) : ∀ d : List (String × V),
      dstrip k (d.map (fun kv => if kv.1 = k' then (k', v) else kv)) =
        (dstrip k d).map (fun kv => if kv.1 = k' then (k', v) else kv) := by
  intro d
  induction d with
  | nil => simp [dstrip]
  | cons kv rest ih =>
    by_cases hk' : kv.1 = k'
    · have hkk : kv.1 ≠ k := by rw [hk']; exact h
      simp [dstrip, hk', hkk, h, ih]
    · have hne : ¬k = k' := fun he => h he.symm
      by_cases hk : kv.1 = k <;> simp [dstrip, hk, hk', hne, ih]

/-- `d[k] = v` does not change the entries at other keys. -/
theorem dstrip_dinsert_self {V : Type} (k : String) (v : V)
    (d : List (String × V)) : dstrip k (dinsert k v d) = dstrip k d := by
  unfold dinsert
  by_cases h : containsKey k d
  · simpa [h] using dstrip_map_replace_self k v d
  · simp only [h, if_false, Bool.false_eq_true]
    rw [dstrip_append]
    simp [dstrip]

theorem dlookup_dstrip_ne {V : Type} (k k' : String) (h : k' ≠ k) :
    ∀ d : List (String × V), dlookup k' (dstrip k d) = dlookup k' d := by
  intro d
  induction d with
  | nil => simp [dstrip]
  | cons kv rest ih =>
    by_cases hk : kv.1 = k
    · have hne : ¬k = k' := fun he => h he.symm
      simp [dstrip, dlookup, hk, hne, ih]
    · by_cases hk' : kv.1 = k'
      · simp [dstrip, dlookup, hk, hk', h, ih]
      · simp [dstrip, dlookup, hk, hk', ih]

theorem dlookup_dstrip_self {V : Type} (k : String) :
    ∀ d : List (String × V), dlookup k (dstrip k d) = Option.none := by
  intro d
  induction d with
  | nil => simp [dstrip, dlookup]
  | cons kv rest ih =>
    by_cases hk : kv.1 = k <;> simp [dstrip, dlookup, hk, ih]

/-- Writing at a key `k'` commutes with ignoring a different key `k`. -/
theorem dstrip_dinsert_ne {V : Type} (k k' : String) (v : V) (h : k' ≠ k)
    (d : List (String × V)) :
    dstrip k (dinsert k' v d) = dinsert k' v (dstrip k d) := by
  unfold dinsert containsKey
  rw [dlookup_dstrip_ne k k' h d]
  by_cases hc : (dlookup k' d).isSome
  · simpa [hc] using dstrip_map_replace_ne k k' v h d
  · simp only [hc, if_false, Bool.false_eq_true]
    rw [dstrip_append]
    simp [dstrip, h]

/-! ### Section 1: the duck-typing example (`Quackable` / `Duck`) -/

/-- `class Duck` from the opening example; it has no fields. -/
structure Duck where
deriving DecidableEq

/-- `Duck.quack`: `return "Quack!"`. -/
def Duck.quack (_ : Duck) : String := "Quack!"

/-! ### Section 3.1: the data-validation example (`Validatable` / `User` /
`save_to_db`) -/

/-- `class User` with `__init__(self, name: str, age: int)`. -/
structure User where
  name : String
  age : Int
deriving DecidableEq

/-- `User.validate`: `return len(self.name) > 0 and self.age > 0`. -/
def User.validate (u : User) : Bool :=
  decide (0 < u.name.length) && decide (0 < u.age)

/-- `User.validate` in explicit state-passing form: the method body contains
no assignment to `self`, so it returns the verdict together with the
unchanged object. -/
def User.validateRun (u : User) : Bool × User :=
  (u.validate, u)

/-- `save_to_db(data: Validatable)`: the `Validatable` protocol is
structural, so the consumer takes any value together with its `validate`
operation. The `print` output is returned; a failing check raises
`ValueError("Data validation failed")`. -/
def save_to_db {A : Type} (validate : A → Bool) (data : A) :
    Except PyErr (List String) :=
  if validate data then Except.ok ["Saving to database"]
  else Except.error (PyErr.valueError "Data validation failed")

/-! ### Section 2.1: the structural-vs-nominal drawing example -/

/-- A value usable where the `Drawable` protocol is expected: anything
carrying a `draw` operation, whose `print` output we record. Structural
typing means nothing else about the value matters to `render`. -/
structure DrawObj where
  draw : List String
deriving DecidableEq

/-- `render(shape: Drawable)`: `shape.draw()`. -/
def render (shape : DrawObj) : List String :=
  shape.draw

/-- `class Circle` (declares no base class): `draw` prints
"Drawing a circle". -/
def circleObj : DrawObj := ⟨["Drawing a circle"]⟩

/-- `class Square(DrawableABC)` (nominal ABC subclass): `draw` prints
"Drawing a square". -/
def squareObj : DrawObj := ⟨["Drawing a square"]⟩

/-! ### Section 4.3.1: runtime checking of protocols -/

/-- Return annotation of a method, as written in the snippets of section
4.3.1 (`-> None` on the protocol, `-> str` on `Shape.draw`). -/
inductive RetTy where
  | noneT
  | strT
deriving DecidableEq

/-- Modelled from the spec: the implementation of `isinstance` on a
`@runtime_checkable` `Protocol` lives in the Python runtime, not in this
repository; the spec describes it as "a runtime membership test verifying
presence of required operation names (not signatures)", and the source's
prose (section 4.3.1) says the same. The test succeeds when every method
name required by the protocol occurs among the object's method names,
ignoring the annotated signatures. -/
def runtimeProtocolCheck (objMethods protoMethods : List (String × RetTy)) :
    Bool :=
  protoMethods.all (fun m => objMethods.any (fun om => om.1 = m.1))

/-- The `@runtime_checkable class Drawable(Protocol)` of section 4.3.1:
one required method, `draw`, annotated `-> None`. -/
def DrawableProtocolMethods : List (String × RetTy) :=
  [("draw", RetTy.noneT)]

/-- `class Shape` of section 4.3.1: a `draw` method annotated `-> str`,
deliberately mismatching the protocol's annotation. -/
def ShapeMethods : List (String × RetTy) :=
  [("draw", RetTy.strT)]

/-! ### Section 3.2: the plugin example -/

/-- A value usable where the `Plugin` protocol is expected: its two
operations, each recorded by its `print` output. The source method names
are `initialize` and `execute`; the first is shortened to `start` here
because `initialize` is reserved in Lean. -/
structure Plugin where
  start : List String
  execute : List String
deriving DecidableEq

/-- `run_plugin(plugin)`: `plugin.initialize()` then `plugin.execute()`;
the concatenated `print` output is returned. -/
def run_plugin (plugin : Plugin) : List String :=
  plugin.start ++ plugin.execute

/-! ### Section 5.1: the web-layer example (`ResponseCookies` / `WebResponse`) -/

/-- The dict literal stored by `WebResponse.set_cookie`: its keys are the
fixed strings `"value"`, `"max_age"`, `"expires"`, `"path"`, `"domain"`,
`"secure"`, `"httponly"`, `"samesite"`, so it is embedded as a record. -/
structure Cookie where
  value : String
  max_age : Option Int
  expires : Option Int
  path : String
  domain : Option String
  secure : Bool
  httponly : Bool
  samesite : String
deriving DecidableEq

/-- The `self.cookies` dict of a `WebResponse` (`__init__` sets it to `{}`). -/
abbrev Cookies : Type := List (String × Cookie)

/-- `WebResponse.set_cookie`: stores the record under `key`. The Python
defaults are `max_age=None`, `expires=None`, `path="/"`, `domain=None`,
`secure=False`, `httponly=False`, `samesite="be better"`; callers passing
the defaulted call sites supply those values explicitly here. -/
def WebResponse.set_cookie (cookies : Cookies) (key value : String)
    (max_age expires : Option Int) (path : String) (domain : Option String)
    (secure httponly : Bool) (samesite : String) : Cookies :=
  dinsert key
    { value := value, max_age := max_age, expires := expires, path := path,
      domain := domain, secure := secure, httponly := httponly,
      samesite := samesite } cookies

/-- Python `del d[key]`: removes the entry, raising `KeyError` when the key
is absent. -/
def ddelete {V : Type} (k : String) (d : List (String × V)) :
    Except PyErr (List (String × V)) :=
  if containsKey k d then Except.ok (dstrip k d)
  else Except.error (PyErr.keyError k)

/-- `WebResponse.delete_cookie`: `if key in self.cookies: del self.cookies[key]`.
`path` and `domain` are accepted and ignored, as in the source. -/
def WebResponse.delete_cookie (cookies : Cookies) (key : String)
    (_path : String) (_domain : Option String) : Except PyErr Cookies :=
  if containsKey key cookies then ddelete key cookies
  else Except.ok cookies

/-! ### Section 5.2: the data-access-layer example -/

/-- A value stored in a MongoDB document or passed as `user_data`. Values
of type `datetime` (produced by `datetime.now()`) are represented by
`Value.time` applied to an abstract clock reading. -/
inductive Value where
  | str (s : String)
  | int (n : Int)
  | bool (b : Bool)
  | time (t : Nat)
deriving DecidableEq

/-- A MongoDB document / Python dict of `Value`s. -/
abbrev Doc : Type := List (String × Value)

/-- `{**user_data, "updated_at": now}`: all fields of `user_data`, with
`updated_at` added (or overwritten). -/
def updatedFields (now : Nat) (user_data : Doc) : Doc :=
  dinsert "updated_at" (Value.time now) user_data

/-- Mongo's `$set`: apply every field of `fields` to `doc` in order. -/
def applySet (doc : Doc) (fields : Doc) : Doc :=
  fields.foldl (fun d kv => dinsert kv.1 kv.2 d) doc

/-- `update_one` on a matching database: `$set` the fields of the first
document whose `_id` equals `uid`. -/
def updateFirst (uid : Value) (fields : Doc) : List Doc → List Doc
  | [] => []
  | doc :: rest =>
    if dlookup "_id" doc = Option.some uid then applySet doc fields :: rest
    else doc :: updateFirst uid fields rest

/-- `MongoUserRepository.save(user_data)`: reads `user_data["id"]` (a
`KeyError` when absent), then runs
`update_one({"_id": id}, {"$set": {**user_data, "updated_at": datetime.now()}},
upsert=True)` against the database `db`, and returns `result.acknowledged`
(true for this client). `now` is the clock reading taken by
`datetime.now()` during the call. -/
def MongoUserRepository.save (db : List Doc) (now : Nat) (user_data : Doc) :
    Except PyErr (List Doc × Bool) :=
  match dlookup "id" user_data with
  | Option.none => Except.error (PyErr.keyError "id")
  | Option.some uid =>
    let fields := updatedFields now user_data
    let db2 :=
      if db.any (fun doc => decide (dlookup "_id" doc = Option.some uid)) then
        updateFirst uid fields db
      else db ++ [applySet [("_id", uid)] fields]
    Except.ok (db2, true)

/-- The `UserRepository` protocol as consumed by `UserService`: the two
operations `activate_user` uses, structurally. `get_by_id` may yield no
document (Mongo's `find_one` returns `None` on no match), and `save`
returns the acknowledgement flag. -/
structure UserRepositoryOps where
  get_by_id : Int → Option Doc
  save : Doc → Bool

/-- `UserService.activate_user(user_id)`: fetches the user, and under
Python truthiness (`if user:` — `None` and the empty dict are falsy) sets
`user["is_active"] = True`, saves, and returns `save`'s result; otherwise
returns `False`. The second component records every document passed to
`repository.save`, so that "save was not called" is expressible. -/
def UserService.activate_user (repo : UserRepositoryOps) (user_id : Int) :
    Bool × List Doc :=
  match repo.get_by_id user_id with
  | Option.some user =>
    if user = ([] : Doc) then (false, [])
    else
      let user2 := dinsert "is_active" (Value.bool true) user
      (repo.save user2, [user2])
  | Option.none => (false, [])

theorem dstrip_idem {V : Type} (k : String) :
    ∀ d : List (String × V), dstrip k (dstrip k d) = dstrip k d := by
  intro d
  induction d with
  | nil => simp [dstrip]
  | cons kv rest ih =>
    by_cases hk : kv.1 = k <;> simp [dstrip, hk, ih]

/-! ### The claims -/

/-- Claim C1: calling `Duck.quack()` on any `Duck` instance returns exactly
the string "Quack!". -/
theorem duck_quack_returns_quack (d : Duck) : d.quack = "Quack!" := rfl

/-- Claim C2: `save_to_db(data)` raises `ValueError` if and only if
`data.validate()` returns `False`; when it returns `True` the call
completes normally, printing "Saving to database" and returning nothing.
For a `User`, it raises exactly when the name is empty (length 0) or the
age is not greater than 0. -/
theorem save_to_db_raises_iff_invalid {A : Type} (validate : A → Bool)
    (data : A) (u : User) :
    (save_to_db validate data =
        Except.error (PyErr.valueError "Data validation failed") ↔
      validate data = false)
    ∧ (validate data = true →
        save_to_db validate data = Except.ok ["Saving to database"])
    ∧ (save_to_db User.validate u =
        Except.error (PyErr.valueError "Data validation failed") ↔
      (u.name.length = 0 ∨ u.age ≤ 0)) := by
  refine ⟨?_, ?_, ?_⟩
  · unfold save_to_db
    cases hv : validate data <;> simp [hv]
  · intro hv
    simp [save_to_db, hv]
  · unfold save_to_db User.validate
    by_cases h1 : 0 < u.name.length <;> by_cases h2 : 0 < u.age <;>
      simp [h1, h2] <;> omega

/-- Witness for C2 at a concrete input: a validator returning `True`
makes `save_to_db` complete normally. -/
theorem save_to_db_raises_iff_invalid_witness :
    save_to_db (fun b : Bool => b) true = Except.ok ["Saving to database"] :=
  (save_to_db_raises_iff_invalid (fun b : Bool => b) true ⟨"x", 1⟩).2.1 rfl

/-- Claim C3: the runtime membership test of a runtime-checkable protocol
verifies only the presence of the required operation names, not their
signatures: `Shape`, whose `draw` is annotated `-> str` instead of the
protocol's `-> None`, still passes the `isinstance` check against
`Drawable`. -/
theorem shape_passes_drawable_runtime_check :
    runtimeProtocolCheck ShapeMethods DrawableProtocolMethods = true
    ∧ dlookup "draw" ShapeMethods = Option.some RetTy.strT
    ∧ dlookup "draw" DrawableProtocolMethods = Option.some RetTy.noneT
    ∧ RetTy.strT ≠ RetTy.noneT := by
  refine ⟨by decide, by decide, by decide, by decide⟩

/-- Claim C4: `render(shape)` invokes `shape.draw()` for every value that
implements a `draw` method, independent of declared lineage, so
`render(Circle())` (no inheritance) and `render(Square())` (nominal ABC
subclass) both succeed with their respective drawing output. -/
theorem render_is_structural (s : DrawObj) :
    render s = s.draw
    ∧ render circleObj = ["Drawing a circle"]
    ∧ render squareObj = ["Drawing a square"] :=
  ⟨rfl, rfl, rfl⟩

/-- Claim C5: `User.validate()` leaves every field of the `User` (`name`,
`age`) unchanged: the user's state after the call equals its state
before. -/
theorem user_validate_preserves_state (u : User) :
    (User.validateRun u).2.name = u.name
    ∧ (User.validateRun u).2.age = u.age
    ∧ (User.validateRun u).2 = u :=
  ⟨rfl, rfl, rfl⟩

/-- Claim C8: `WebResponse.delete_cookie(key, ...)` removes the entry for
`key` from the cookies dict when present; when absent it is a no-op that
leaves the dict unchanged; in both cases it completes without raising. -/
theorem delete_cookie_removes_or_noop (cookies : Cookies) (key path : String)
    (domain : Option String) :
    ∃ c2 : Cookies,
      WebResponse.delete_cookie cookies key path domain = Except.ok c2
      ∧ c2 = (if containsKey key cookies then dstrip key cookies else cookies)
      ∧ dlookup key c2 = Option.none
      ∧ dstrip key c2 = dstrip key cookies := by
  by_cases h : containsKey key cookies
  · refine ⟨dstrip key cookies, ?_, by simp [h], ?_, ?_⟩
    · simp [WebResponse.delete_cookie, ddelete, h]
    · exact dlookup_dstrip_self key cookies
    · exact dstrip_idem key cookies
  · refine ⟨cookies, ?_, by simp [h], ?_, rfl⟩
    · simp [WebResponse.delete_cookie, h]
    · have : ¬(dlookup key cookies).isSome := by
        simpa [containsKey] using h
      cases hd : dlookup key cookies with
      | none => rfl
      | some c => rw [hd] at this; simp at this

/-- Claim C9: after `WebResponse.set_cookie(key, value, ...)` the cookies
dict maps `key` to a record whose `value` field is `value` and whose
remaining fields are the supplied arguments; entries at other keys are
unchanged; with all optional arguments defaulted the stored `samesite`
field is the literal "be better". -/
theorem set_cookie_stores_record (cookies : Cookies) (key value : String)
    (max_age expires : Option Int) (path : String) (domain : Option String)
    (secure httponly : Bool) (samesite : String) :
    dlookup key (WebResponse.set_cookie cookies key value max_age expires
        path domain secure httponly samesite) =
      Option.some (Cookie.mk value max_age expires path domain secure
        httponly samesite)
    ∧ dstrip key (WebResponse.set_cookie cookies key value max_age expires
        path domain secure httponly samesite) = dstrip key cookies
    ∧ (dlookup key (WebResponse.set_cookie cookies key value Option.none
        Option.none "/" Option.none false false "be better")).map
          Cookie.samesite = Option.some "be better" := by
  refine ⟨dlookup_dinsert_self key _ cookies,
    dstrip_dinsert_self key _ cookies, ?_⟩
  rw [WebResponse.set_cookie, dlookup_dinsert_self]
  rfl

/-- Counterexample to claim C6 as stated: `MongoUserRepository.save` does
not complete normally on every input — with a `user_data` dict lacking the
key "id", the subscript `user_data["id"]` raises `KeyError`. -/
theorem mongo_save_keyError_on_missing_id :
    MongoUserRepository.save [] 0 [] = Except.error (PyErr.keyError "id") :=
  rfl

/-- Claim C6 (amended): apart from the single illustrative raise in
`save_to_db`, the only other failure mode among the example operations is
`MongoUserRepository.save` raising `KeyError` when `user_data` lacks the
key "id"; `delete_cookie` and `run_plugin` complete normally on every
input, and `save` completes normally (returning the acknowledgement
`True`) whenever `user_data` contains "id". -/
theorem example_ops_complete_normally :
    (∀ (cookies : Cookies) (key path : String) (domain : Option String),
      ∃ c2 : Cookies,
        WebResponse.delete_cookie cookies key path domain = Except.ok c2)
    ∧ (∀ p : Plugin, run_plugin p = p.start ++ p.execute)
    ∧ (∀ (db : List Doc) (now : Nat) (user_data : Doc) (v : Value),
        dlookup "id" user_data = Option.some v →
        ∃ db2 : List Doc,
          MongoUserRepository.save db now user_data =
            Except.ok (db2, true)) := by
  refine ⟨?_, fun _ => rfl, ?_⟩
  · intro cookies key path domain
    by_cases h : containsKey key cookies
    · exact ⟨dstrip key cookies, by simp [WebResponse.delete_cookie, ddelete, h]⟩
    · exact ⟨cookies, by simp [WebResponse.delete_cookie, h]⟩
  · intro db now user_data v h
    refine ⟨if db.any (fun doc => decide (dlookup "_id" doc = Option.some v))
        then updateFirst v (updatedFields now user_data) db
        else db ++ [applySet [("_id", v)] (updatedFields now user_data)], ?_⟩
    unfold MongoUserRepository.save
    rw [h]

/-- Witness for C6 at concrete inputs: deleting from an empty cookie dict
completes normally, and `save` with a `user_data` containing "id"
completes normally. -/
theorem example_ops_complete_normally_witness :
    (∃ c2 : Cookies,
      WebResponse.delete_cookie [] "session_id" "/" Option.none =
        Except.ok c2)
    ∧ (∃ db2 : List Doc,
      MongoUserRepository.save [] 0 [("id", Value.int 1)] =
        Except.ok (db2, true)) :=
  ⟨example_ops_complete_normally.1 [] "session_id" "/" Option.none,
   example_ops_complete_normally.2.2 [] 0 [("id", Value.int 1)]
     (Value.int 1) rfl⟩

/-- Counterexample to claim C7 as stated: two runs of
`MongoUserRepository.save` with equal inputs and equal starting state but
different `datetime.now()` readings produce different final states — the
stored `updated_at` differs. -/
theorem mongo_save_two_runs_differ :
    MongoUserRepository.save [] 0 [("id", Value.int 1)] =
      Except.ok ([[("_id", Value.int 1), ("id", Value.int 1),
        ("updated_at", Value.time 0)]], true)
    ∧ MongoUserRepository.save [] 1 [("id", Value.int 1)] =
      Except.ok ([[("_id", Value.int 1), ("id", Value.int 1),
        ("updated_at", Value.time 1)]], true)
    ∧ ([[("_id", Value.int 1), ("id", Value.int 1),
        ("updated_at", Value.time 0)]] : List Doc) ≠
      [[("_id", Value.int 1), ("id", Value.int 1),
        ("updated_at", Value.time 1)]] :=
  ⟨rfl, rfl, by decide⟩

/-- Erase the `updated_at` field (the clock reading recorded by
`MongoUserRepository.save`) from every document of a `save` result. -/
def stripTimeResult : Except PyErr (List Doc × Bool) →
    Except PyErr (List Doc × Bool)
  | Except.error e => Except.error e
  | Except.ok (db, ack) => Except.ok (db.map (dstrip "updated_at"), ack)

theorem dstrip_applySet (k : String) :
    ∀ fields doc : Doc,
      dstrip k (applySet doc fields) =
        applySet (dstrip k doc) (dstrip k fields) := by
  intro fields
  induction fields with
  | nil => intro doc; rfl
  | cons kv rest ih =>
    intro doc
    have h1 : applySet doc (kv :: rest) =
        applySet (dinsert kv.1 kv.2 doc) rest := rfl
    by_cases hk : kv.1 = k
    · rw [h1, ih, hk, dstrip_dinsert_self]
      simp [dstrip, hk]
    · rw [h1, ih, dstrip_dinsert_ne k kv.1 kv.2 hk]
      simp only [dstrip, hk, if_false]
      rfl

theorem updateFirst_map_dstrip (k : String) (uid : Value) (f1 f2 : Doc)
    (hf : dstrip k f1 = dstrip k f2) :
    ∀ db : List Doc,
      (updateFirst uid f1 db).map (dstrip k) =
        (updateFirst uid f2 db).map (dstrip k) := by
  intro db
  induction db with
  | nil => rfl
  | cons doc rest ih =>
    by_cases h : dlookup "_id" doc = Option.some uid
    · simp [updateFirst, h, dstrip_applySet, hf]
    · simp only [updateFirst, h, if_false, List.map_cons]
      rw [ih]

/-- Claim C7 (amended): every example operation is a function of its
explicit inputs and starting state alone, except `MongoUserRepository.save`,
which additionally records the current `datetime.now()` reading in the
`updated_at` field it stores; modulo that field, `save` too is
deterministic — two runs with equal inputs and equal starting state agree
everywhere outside `updated_at`. -/
theorem mongo_save_deterministic_modulo_updated_at (db : List Doc)
    (user_data : Doc) (t1 t2 : Nat) :
    stripTimeResult (MongoUserRepository.save db t1 user_data) =
      stripTimeResult (MongoUserRepository.save db t2 user_data) := by
  unfold MongoUserRepository.save
  cases hid : dlookup "id" user_data with
  | none => rfl
  | some uid =>
    have hf : dstrip "updated_at" (updatedFields t1 user_data) =
        dstrip "updated_at" (updatedFields t2 user_data) := by
      unfold updatedFields
      rw [dstrip_dinsert_self, dstrip_dinsert_self]
    by_cases hany :
        db.any (fun doc => decide (dlookup "_id" doc = Option.some uid))
    · simp only [hany, if_true, stripTimeResult]
      rw [updateFirst_map_dstrip "updated_at" uid _ _ hf db]
    · simp only [hany, if_false, stripTimeResult, Bool.false_eq_true,
        List.map_append, List.map_cons, List.map_nil]
      rw [dstrip_applySet, dstrip_applySet, hf]

/-- A repository whose `get_by_id` yields an empty user dict `{}` for every
id, and whose `save` acknowledges every write. -/
def emptyUserRepo : UserRepositoryOps :=
  ⟨fun _ => Option.some ([] : Doc), fun _ => true⟩

/-- A repository with no users at all. -/
def absentUserRepo : UserRepositoryOps :=
  ⟨fun _ => Option.none, fun _ => false⟩

/-- A repository whose `get_by_id` yields the user `{"id": 1}` and whose
`save` acknowledges every write. -/
def oneUserRepo : UserRepositoryOps :=
  ⟨fun _ => Option.some ([("id", Value.int 1)] : Doc), fun _ => true⟩

/-- Counterexample to claim C10 as stated: with a repository whose
`get_by_id` yields a user — the empty dict — `activate_user` neither calls
`save` nor returns `save`'s result (`True` here); Python's `if user:`
treats the empty dict as falsy, so the code returns `False` with no `save`
call. -/
theorem activate_user_empty_dict_short_circuits :
    emptyUserRepo.get_by_id 7 = Option.some ([] : Doc)
    ∧ emptyUserRepo.save (dinsert "is_active" (Value.bool true) []) = true
    ∧ UserService.activate_user emptyUserRepo 7 = (false, []) :=
  ⟨rfl, rfl, rfl⟩

/-- Claim C10 (amended): `UserService.activate_user(user_id)` returns
`False` without calling the repository's `save` when `get_by_id(user_id)`
yields no user or yields an empty (falsy) user dict; otherwise it sets the
user's `is_active` field to `True`, passes the updated user to `save`, and
returns `save`'s result. -/
theorem activate_user_spec (repo : UserRepositoryOps) (user_id : Int) :
    (repo.get_by_id user_id = Option.none →
      UserService.activate_user repo user_id = (false, []))
    ∧ (repo.get_by_id user_id = Option.some ([] : Doc) →
      UserService.activate_user repo user_id = (false, []))
    ∧ (∀ user : Doc, repo.get_by_id user_id = Option.some user →
        user ≠ ([] : Doc) →
        UserService.activate_user repo user_id =
          (repo.save (dinsert "is_active" (Value.bool true) user),
           [dinsert "is_active" (Value.bool true) user])) := by
  refine ⟨?_, ?_, ?_⟩
  · intro h
    simp [UserService.activate_user, h]
  · intro h
    simp [UserService.activate_user, h]
  · intro user h hne
    simp [UserService.activate_user, h, hne]

/-- Witness for C10 at concrete repositories: all three cases of the
amended specification, each with its hypothesis discharged. -/
theorem activate_user_spec_witness :
    UserService.activate_user absentUserRepo 1 = (false, [])
    ∧ UserService.activate_user emptyUserRepo 1 = (false, [])
    ∧ UserService.activate_user oneUserRepo 1 =
        (oneUserRepo.save
          (dinsert "is_active" (Value.bool true) [("id", Value.int 1)]),
         [dinsert "is_active" (Value.bool true) [("id", Value.int 1)]]) :=
  ⟨(activate_user_spec absentUserRepo 1).1 rfl,
   (activate_user_spec emptyUserRepo 1).2.1 rfl,
   (activate_user_spec oneUserRepo 1).2.2 [("id", Value.int 1)] rfl
     (by decide)⟩
